import Mathlib

/-!
Verification of the configuration-resolution and credential-loading logic of
the mycrud utility (src/main.go, and the variant in src/unnamed/part_000).

The embedding models:
* the process environment as a function `String → Option String`
  (`os.LookupEnv`);
* the external world (filesystem, PEM parsing, key-pair loading, the mysql
  driver's TLS-config registry) as an explicit `World` record threaded
  through the functions, with an effect trace recording every side effect
  beyond environment reads;
* `dbConfFromEnv` and `tlsConfig` faithfully to the Go source, including the
  Go convention of returning a (value, error) pair rather than a sum type;
* the user table and the `Users` query for the CRUD claim.
-/

/-- Errors produced by the program, mirroring the `errors.New` values in
src/main.go lines 73-78 plus the error values propagated from external
calls (file read, key-pair load, registration). -/
inductive DBError where
  /-- `errCertPath = errors.New("DB_CA_CERT_PATH is required and was not set")` -/
  | errCertPath
  /-- `errClientCertPath = errors.New("DB_CLIENT_CERT_PATH is required and was not set")` -/
  | errClientCertPath
  /-- `errClientKeyPath = errors.New("DB_CLIENT_KEY_PATH is required and was not set")` -/
  | errClientKeyPath
  /-- `errCertPEM = errors.New("trusted conn with DB not established, cannot parse cert PEM")` -/
  | errCertPEM
  /-- an error returned by `ioutil.ReadFile` on the given path -/
  | readFileError (path : String)
  /-- an error returned by `tls.LoadX509KeyPair` -/
  | keyPairError (msg : String)
  /-- an error returned by `mysql.RegisterTLSConfig` -/
  | registerTLSError (msg : String)
deriving DecidableEq, Repr

/-- A client certificate as produced by `tls.LoadX509KeyPair` (opaque data). -/
structure Certificate where
  data : List Nat
deriving DecidableEq, Repr

/-- The `tls.Config` value built by `tlsConfig`: the root pool holds the raw
PEM bytes appended via `AppendCertsFromPEM`, and the client certificates
list. -/
structure TLSConf where
  RootCAs : List Nat
  Certificates : List Certificate
deriving DecidableEq, Repr

/-- A side effect beyond reading environment variables: a file read, a
client key-pair load (which reads the two files), or a registration in the
driver's process-wide TLS-config registry. -/
inductive Effect where
  | readFile (path : String)
  | loadKeyPair (certPath keyPath : String)
  | registerTLS (key : String)
deriving DecidableEq, Repr

/-- The external world: filesystem and library oracles, plus the mysql
driver's TLS-config registry state.

* `fs` models `ioutil.ReadFile`: `none` means the read fails (file missing
  or unreadable), `some bytes` is the file content.
* `appendCertsFromPEM` models `x509.CertPool.AppendCertsFromPEM`, returning
  whether at least one valid PEM certificate was parsed from the bytes.
* `loadX509KeyPair` models `tls.LoadX509KeyPair` on the two paths.
* `registerErr` models whether `mysql.RegisterTLSConfig` rejects a key
  (the driver reserves some key names); `none` means registration succeeds.
* `registry` is the driver's key-indexed registry; newest entry first, and
  lookup takes the first match, so re-registration is last-write-wins. -/
structure World where
  fs : String → Option (List Nat)
  appendCertsFromPEM : List Nat → Bool
  loadX509KeyPair : String → String → Except String Certificate
  registerErr : String → Option String
  registry : List (String × TLSConf)

/-- Modelled from the spec: `mysql.RegisterTLSConfig` (the go-sql-driver
registry, not part of this repository) registers the profile under the key
so the connection-string builder can reference it by name; registering the
same key twice overwrites the previous profile (last-write-wins); the
driver may reject certain keys with a registration error, abstracted here
by the `registerErr` oracle. -/
def RegisterTLSConfig (key : String) (conf : TLSConf) (w : World) :
    Option DBError × World :=
  match w.registerErr key with
  | some msg => (some (.registerTLSError msg), w)
  | none => (none, { w with registry := (key, conf) :: w.registry })

/-- Result of `tlsConfig`: the Go function returns
`(tconfKey string, err error)`; the embedding also carries the updated
world and the trace of side effects performed. -/
structure TLSResult where
  tconfKey : String
  err : Option DBError
  world : World
  trace : List Effect

/-- Embedding of `tlsConfig` (src/main.go lines 131-153): read the CA
bundle, append its PEM certificates to a fresh root pool (failing with
`errCertPEM` if none parses), load the client certificate/key pair, build
the `tls.Config`, and register it under the fixed key "custom". -/
def tlsConfig (caCertPath clientCertPath clientKeyPath : String)
    (w : World) : TLSResult :=
  match w.fs caCertPath with
  | none => ⟨"", some (.readFileError caCertPath), w, [.readFile caCertPath]⟩
  | some pem =>
    if w.appendCertsFromPEM pem = false then
      ⟨"", some .errCertPEM, w, [.readFile caCertPath]⟩
    else
      match w.loadX509KeyPair clientCertPath clientKeyPath with
      | .error msg =>
        ⟨"", some (.keyPairError msg), w,
          [.readFile caCertPath, .loadKeyPair clientCertPath clientKeyPath]⟩
      | .ok cert =>
        let dbTLSConfig : TLSConf := ⟨pem, [cert]⟩
        let tconfKey := "custom"
        match RegisterTLSConfig tconfKey dbTLSConfig w with
        | (some e, w') =>
          ⟨"", some e, w',
            [.readFile caCertPath,
             .loadKeyPair clientCertPath clientKeyPath,
             .registerTLS tconfKey]⟩
        | (none, w') =>
          ⟨tconfKey, none, w',
            [.readFile caCertPath,
             .loadKeyPair clientCertPath clientKeyPath,
             .registerTLS tconfKey]⟩

/-- The subset of `mysql.Config` fields used by the program. `Loc` is the
timezone name (`time.UTC` is "UTC"); `TLSConfig` is the registered
trust-profile lookup key, `""` (the Go zero value) when no trust profile is
attached. -/
structure MysqlConfig where
  User : String
  Passwd : String
  Net : String
  Addr : String
  DBName : String
  Loc : String
  ParseTime : Bool
  TLSConfig : String
deriving DecidableEq, Repr

/-- The literal `&mysql.Config{...}` built at the top of `dbConfFromEnv`
(src/main.go lines 81-89): the defaults before any override. -/
def defaultConf : MysqlConfig :=
  { User := "root"
  , Passwd := ""
  , Net := "tcp"
  , Addr := "localhost:3306"
  , DBName := "mycrud"
  , Loc := "UTC"
  , ParseTime := true
  , TLSConfig := "" }

/-- The process environment: `os.LookupEnv` returns `some v` when the
variable is present (possibly bound to the empty string) and `none` when
absent. -/
def Env : Type := String → Option String

/-- The four independent override blocks of `dbConfFromEnv`
(src/main.go lines 90-101): each field is replaced exactly when the
corresponding variable is present. -/
def applyOverrides (env : Env) (dconf : MysqlConfig) : MysqlConfig :=
  let dconf := match env "DB_USER" with
    | some v => { dconf with User := v }
    | none => dconf
  let dconf := match env "DB_PASS" with
    | some v => { dconf with Passwd := v }
    | none => dconf
  let dconf := match env "DB_ADDR" with
    | some v => { dconf with Addr := v }
    | none => dconf
  match env "DB_NAME" with
  | some v => { dconf with DBName := v }
  | none => dconf

/-- Result of `dbConfFromEnv`: the Go function returns
`(*mysql.Config, error)`; `dconf = none` models a nil pointer. The
embedding also carries the updated world and the side-effect trace. -/
structure ConfResult where
  dconf : Option MysqlConfig
  err : Option DBError
  world : World
  trace : List Effect

/-- Embedding of `dbConfFromEnv` (src/main.go lines 80-123): build the
default config, apply the four overrides, return early (TLS skipped) if
DB_SKIP_TLS is present, otherwise require the three path variables in
order and delegate to `tlsConfig`. -/
def dbConfFromEnv (env : Env) (w : World) : ConfResult :=
  let dconf := applyOverrides env defaultConf
  match env "DB_SKIP_TLS" with
  | some _ => ⟨some dconf, none, w, []⟩
  | none =>
    match env "DB_CA_CERT_PATH" with
    | none => ⟨none, some .errCertPath, w, []⟩
    | some caCertPath =>
      match env "DB_CLIENT_CERT_PATH" with
      | none => ⟨none, some .errClientCertPath, w, []⟩
      | some clientCertPath =>
        match env "DB_CLIENT_KEY_PATH" with
        | none => ⟨none, some .errClientKeyPath, w, []⟩
        | some clientKeyPath =>
          let r := tlsConfig caCertPath clientCertPath clientKeyPath w
          match r.err with
          | some e => ⟨none, some e, r.world, r.trace⟩
          | none =>
            ⟨some { dconf with TLSConfig := r.tconfKey }, none, r.world, r.trace⟩

/-- A row of the user table (the `user` struct, src/main.go lines 170-175);
timestamps are modelled as opaque naturals. -/
structure user where
  id : String
  createdAt : Nat
  updatedAt : Nat
  name : String
deriving DecidableEq, Repr

/-- The database state seen by the Query Executor: the rows of the user
table. Modelled from the spec: the server returns the rows of a full-table
select in insertion order, so `table` lists the rows in insertion order. -/
structure DBState where
  table : List user

/-- Embedding of `(*db).Users` (src/main.go lines 186-205): issue
`select id,cat,uat,name from user` and accumulate each scanned row with
`uu = append(uu, &u)`. Returns `(rows, error)` in the Go convention. -/
def Users (s : DBState) : Option (List user) × Option DBError :=
  let uu := s.table.foldl (fun uu u => uu ++ [u]) []
  (some uu, none)

/-! ### Structural lemmas about the branches of the two functions -/

theorem applyOverrides_fields (env : Env) (d : MysqlConfig) :
    (applyOverrides env d).User = (env "DB_USER").getD d.User ∧
    (applyOverrides env d).Passwd = (env "DB_PASS").getD d.Passwd ∧
    (applyOverrides env d).Addr = (env "DB_ADDR").getD d.Addr ∧
    (applyOverrides env d).DBName = (env "DB_NAME").getD d.DBName ∧
    (applyOverrides env d).Net = d.Net ∧
    (applyOverrides env d).Loc = d.Loc ∧
    (applyOverrides env d).ParseTime = d.ParseTime ∧
    (applyOverrides env d).TLSConfig = d.TLSConfig := by
  unfold applyOverrides
  cases env "DB_USER" <;> cases env "DB_PASS" <;> cases env "DB_ADDR" <;>
    cases env "DB_NAME" <;> simp

theorem dbConfFromEnv_skip (env : Env) (w : World) (v : String)
    (h : env "DB_SKIP_TLS" = some v) :
    dbConfFromEnv env w = ⟨some (applyOverrides env defaultConf), none, w, []⟩ := by
  unfold dbConfFromEnv
  simp only [h]

theorem dbConfFromEnv_missing_ca (env : Env) (w : World)
    (hs : env "DB_SKIP_TLS" = none) (h : env "DB_CA_CERT_PATH" = none) :
    dbConfFromEnv env w = ⟨none, some .errCertPath, w, []⟩ := by
  unfold dbConfFromEnv
  simp only [hs, h]

theorem dbConfFromEnv_missing_cc (env : Env) (w : World) (ca : String)
    (hs : env "DB_SKIP_TLS" = none) (hca : env "DB_CA_CERT_PATH" = some ca)
    (h : env "DB_CLIENT_CERT_PATH" = none) :
    dbConfFromEnv env w = ⟨none, some .errClientCertPath, w, []⟩ := by
  unfold dbConfFromEnv
  simp only [hs, hca, h]

theorem dbConfFromEnv_missing_ck (env : Env) (w : World) (ca cc : String)
    (hs : env "DB_SKIP_TLS" = none) (hca : env "DB_CA_CERT_PATH" = some ca)
    (hcc : env "DB_CLIENT_CERT_PATH" = some cc)
    (h : env "DB_CLIENT_KEY_PATH" = none) :
    dbConfFromEnv env w = ⟨none, some .errClientKeyPath, w, []⟩ := by
  unfold dbConfFromEnv
  simp only [hs, hca, hcc, h]

theorem dbConfFromEnv_delegates (env : Env) (w : World) (ca cc ck : String)
    (hs : env "DB_SKIP_TLS" = none) (hca : env "DB_CA_CERT_PATH" = some ca)
    (hcc : env "DB_CLIENT_CERT_PATH" = some cc)
    (hck : env "DB_CLIENT_KEY_PATH" = some ck) :
    dbConfFromEnv env w =
      match (tlsConfig ca cc ck w).err with
      | some e => ⟨none, some e, (tlsConfig ca cc ck w).world,
                   (tlsConfig ca cc ck w).trace⟩
      | none => ⟨some { applyOverrides env defaultConf with
                          TLSConfig := (tlsConfig ca cc ck w).tconfKey },
                 none, (tlsConfig ca cc ck w).world,
                 (tlsConfig ca cc ck w).trace⟩ := by
  unfold dbConfFromEnv
  simp only [hs, hca, hcc, hck]

theorem tlsConfig_read_fail (ca cc ck : String) (w : World)
    (h : w.fs ca = none) :
    tlsConfig ca cc ck w = ⟨"", some (.readFileError ca), w, [.readFile ca]⟩ := by
  unfold tlsConfig
  simp only [h]

theorem tlsConfig_pem_fail (ca cc ck : String) (w : World) (pem : List Nat)
    (h : w.fs ca = some pem) (h2 : w.appendCertsFromPEM pem = false) :
    tlsConfig ca cc ck w = ⟨"", some .errCertPEM, w, [.readFile ca]⟩ := by
  unfold tlsConfig
  simp only [h, h2, if_true]

theorem tlsConfig_pair_fail (ca cc ck : String) (w : World) (pem : List Nat)
    (msg : String) (h : w.fs ca = some pem)
    (h2 : w.appendCertsFromPEM pem = true)
    (h3 : w.loadX509KeyPair cc ck = .error msg) :
    tlsConfig ca cc ck w =
      ⟨"", some (.keyPairError msg), w, [.readFile ca, .loadKeyPair cc ck]⟩ := by
  unfold tlsConfig
  simp only [h, h2, h3]
  simp

theorem tlsConfig_register_fail (ca cc ck : String) (w : World) (pem : List Nat)
    (cert : Certificate) (msg : String) (h : w.fs ca = some pem)
    (h2 : w.appendCertsFromPEM pem = true)
    (h3 : w.loadX509KeyPair cc ck = .ok cert)
    (h4 : w.registerErr "custom" = some msg) :
    tlsConfig ca cc ck w =
      ⟨"", some (.registerTLSError msg), w,
       [.readFile ca, .loadKeyPair cc ck, .registerTLS "custom"]⟩ := by
  unfold tlsConfig RegisterTLSConfig
  simp only [h, h2, h3, h4]
  simp

theorem tlsConfig_success (ca cc ck : String) (w : World) (pem : List Nat)
    (cert : Certificate) (h : w.fs ca = some pem)
    (h2 : w.appendCertsFromPEM pem = true)
    (h3 : w.loadX509KeyPair cc ck = .ok cert)
    (h4 : w.registerErr "custom" = none) :
    tlsConfig ca cc ck w =
      ⟨"custom", none,
       { w with registry := ("custom", ⟨pem, [cert]⟩) :: w.registry },
       [.readFile ca, .loadKeyPair cc ck, .registerTLS "custom"]⟩ := by
  unfold tlsConfig RegisterTLSConfig
  simp only [h, h2, h3, h4]
  simp

/-! ### Concrete inputs used by witnesses and counterexamples -/

/-- A world in which every external operation fails: no file is readable,
no PEM parses, no key pair loads, every registration is rejected. -/
def failWorld : World :=
  ⟨fun _ => none, fun _ => false, fun _ _ => .error "bad pair",
   fun _ => some "reserved", []⟩

/-- A world in which every external operation succeeds. -/
def okWorld : World :=
  ⟨fun _ => some [0], fun _ => true, fun _ _ => .ok ⟨[1]⟩, fun _ => none, []⟩

/-- An environment with only DB_SKIP_TLS bound (to the empty string). -/
def onlySkipEnv : Env :=
  fun k => if k = "DB_SKIP_TLS" then some "" else none

/-- An environment binding only the three certificate-path variables. -/
def tlsOnlyEnv : Env :=
  fun k =>
    if k = "DB_CA_CERT_PATH" then some "ca.pem"
    else if k = "DB_CLIENT_CERT_PATH" then some "cc.pem"
    else if k = "DB_CLIENT_KEY_PATH" then some "ck.pem"
    else none

/-- An environment binding only DB_CA_CERT_PATH. -/
def caOnlyEnv : Env :=
  fun k => if k = "DB_CA_CERT_PATH" then some "ca.pem" else none

/-- An environment binding the four override variables and DB_SKIP_TLS. -/
def overrideEnv : Env :=
  fun k =>
    if k = "DB_USER" then some "u"
    else if k = "DB_PASS" then some "p"
    else if k = "DB_ADDR" then some "a:1"
    else if k = "DB_NAME" then some "n"
    else if k = "DB_SKIP_TLS" then some "1"
    else none

/-! ### The claims -/

/-- C1: whenever DB_SKIP_TLS is present (bound to any value, even ""),
`dbConfFromEnv` returns successfully with no trust profile attached
(TLSConfig is the empty key), regardless of the path variables; and with
only DB_SKIP_TLS set, the result is exactly the default configuration
("root", "", "localhost:3306", "mycrud") with no trust profile, the world
untouched and no side effect performed. -/
theorem dbConfFromEnv_skip_tls_no_trust (env : Env) (w : World) (v : String)
    (h : env "DB_SKIP_TLS" = some v) :
    ((dbConfFromEnv env w).err = none ∧
     ∃ cfg, (dbConfFromEnv env w).dconf = some cfg ∧ cfg.TLSConfig = "") ∧
    dbConfFromEnv onlySkipEnv w = ⟨some defaultConf, none, w, []⟩ := by
  refine ⟨?_, ?_⟩
  · rw [dbConfFromEnv_skip env w v h]
    exact ⟨rfl, applyOverrides env defaultConf, rfl,
      (applyOverrides_fields env defaultConf).2.2.2.2.2.2.2⟩
  · rw [dbConfFromEnv_skip onlySkipEnv w "" rfl]
    rfl

/-- Witness for C1 at a concrete environment and world. -/
theorem dbConfFromEnv_skip_tls_no_trust_witness :
    ((dbConfFromEnv onlySkipEnv failWorld).err = none ∧
     ∃ cfg, (dbConfFromEnv onlySkipEnv failWorld).dconf = some cfg ∧
       cfg.TLSConfig = "") ∧
    dbConfFromEnv onlySkipEnv failWorld = ⟨some defaultConf, none, failWorld, []⟩ :=
  dbConfFromEnv_skip_tls_no_trust onlySkipEnv failWorld "" rfl

/-- C2: when DB_SKIP_TLS is unset and at least one path variable is unset,
`dbConfFromEnv` fails (nil config) with the error naming the first missing
variable in the fixed order CA cert, client cert, client key, and performs
no file I/O or other side effect (empty trace, world unchanged). -/
theorem dbConfFromEnv_missing_path_first_error (env : Env) (w : World)
    (hs : env "DB_SKIP_TLS" = none)
    (hmiss : env "DB_CA_CERT_PATH" = none ∨ env "DB_CLIENT_CERT_PATH" = none ∨
             env "DB_CLIENT_KEY_PATH" = none) :
    (dbConfFromEnv env w).dconf = none ∧
    (dbConfFromEnv env w).err =
      some (if env "DB_CA_CERT_PATH" = none then .errCertPath
            else if env "DB_CLIENT_CERT_PATH" = none then .errClientCertPath
            else .errClientKeyPath) ∧
    (dbConfFromEnv env w).trace = [] ∧
    (dbConfFromEnv env w).world = w := by
  rcases hca : env "DB_CA_CERT_PATH" with _ | ca
  · rw [dbConfFromEnv_missing_ca env w hs hca]
    simp
  · rcases hcc : env "DB_CLIENT_CERT_PATH" with _ | cc
    · rw [dbConfFromEnv_missing_cc env w ca hs hca hcc]
      simp
    · rcases hck : env "DB_CLIENT_KEY_PATH" with _ | ck
      · rw [dbConfFromEnv_missing_ck env w ca cc hs hca hcc hck]
        simp
      · rcases hmiss with h | h | h <;> simp_all

/-- Witness for C2: only DB_CA_CERT_PATH is set, so the client-cert error
is reported with no side effects. -/
theorem dbConfFromEnv_missing_path_first_error_witness :
    (dbConfFromEnv caOnlyEnv failWorld).dconf = none ∧
    (dbConfFromEnv caOnlyEnv failWorld).err =
      some (if caOnlyEnv "DB_CA_CERT_PATH" = none then .errCertPath
            else if caOnlyEnv "DB_CLIENT_CERT_PATH" = none then .errClientCertPath
            else .errClientKeyPath) ∧
    (dbConfFromEnv caOnlyEnv failWorld).trace = [] ∧
    (dbConfFromEnv caOnlyEnv failWorld).world = failWorld :=
  dbConfFromEnv_missing_path_first_error caOnlyEnv failWorld rfl (.inr (.inl rfl))

/-- C3 counterexample: with an unreadable CA bundle file (zero certificates
can be extracted), `tlsConfig` fails with the underlying read error, not
the certificate-parse error, so the claim as stated is false. -/
theorem tlsConfig_unreadable_counterexample :
    (tlsConfig "ca.pem" "cc.pem" "ck.pem" failWorld).err ≠
      some DBError.errCertPEM ∧
    (tlsConfig "ca.pem" "cc.pem" "ck.pem" failWorld).err =
      some (DBError.readFileError "ca.pem") := by
  constructor
  · decide
  · rfl

/-- C3 amended: if the CA bundle file is readable but yields zero valid PEM
certificates, `tlsConfig` fails with the certificate-parse error
(`errCertPEM`) and an empty key, leaving the world untouched — it never
proceeds with a silent empty trust set; if the file is unreadable, it fails
with the underlying read error (still never proceeding). -/
theorem tlsConfig_empty_trust_fails (ca cc ck : String) (w : World) :
    (∀ pem, w.fs ca = some pem → w.appendCertsFromPEM pem = false →
      (tlsConfig ca cc ck w).err = some .errCertPEM ∧
      (tlsConfig ca cc ck w).tconfKey = "" ∧
      (tlsConfig ca cc ck w).world = w) ∧
    (w.fs ca = none →
      (tlsConfig ca cc ck w).err = some (.readFileError ca) ∧
      (tlsConfig ca cc ck w).tconfKey = "" ∧
      (tlsConfig ca cc ck w).world = w) := by
  constructor
  · intro pem h h2
    rw [tlsConfig_pem_fail ca cc ck w pem h h2]
    exact ⟨rfl, rfl, rfl⟩
  · intro h
    rw [tlsConfig_read_fail ca cc ck w h]
    exact ⟨rfl, rfl, rfl⟩

/-- Witness for the amended C3: a world whose files read successfully but
whose PEM parser extracts nothing triggers the certificate-parse error. -/
theorem tlsConfig_empty_trust_fails_witness :
    (tlsConfig "ca.pem" "cc.pem" "ck.pem"
      ⟨fun _ => some [7], fun _ => false, fun _ _ => .ok ⟨[1]⟩,
       fun _ => none, []⟩).err = some .errCertPEM :=
  ((tlsConfig_empty_trust_fails "ca.pem" "cc.pem" "ck.pem"
      ⟨fun _ => some [7], fun _ => false, fun _ _ => .ok ⟨[1]⟩,
       fun _ => none, []⟩).1 [7] rfl rfl).1

/-- C4: whenever `dbConfFromEnv` returns a configuration, each of the
username, password, address and database-name fields equals the
corresponding environment variable's value exactly when that variable is
present (an empty value still overrides) and the default otherwise — which
covers all sixteen present/absent combinations. -/
theorem dbConfFromEnv_override_by_presence (env : Env) (w : World)
    (cfg : MysqlConfig) (h : (dbConfFromEnv env w).dconf = some cfg) :
    cfg.User = (env "DB_USER").getD "root" ∧
    cfg.Passwd = (env "DB_PASS").getD "" ∧
    cfg.Addr = (env "DB_ADDR").getD "localhost:3306" ∧
    cfg.DBName = (env "DB_NAME").getD "mycrud" := by
  obtain ⟨hU, hP, hA, hN, -⟩ := applyOverrides_fields env defaultConf
  rcases hs : env "DB_SKIP_TLS" with _ | v
  · rcases hca : env "DB_CA_CERT_PATH" with _ | ca
    · rw [dbConfFromEnv_missing_ca env w hs hca] at h
      exact absurd h (by simp)
    · rcases hcc : env "DB_CLIENT_CERT_PATH" with _ | cc
      · rw [dbConfFromEnv_missing_cc env w ca hs hca hcc] at h
        exact absurd h (by simp)
      · rcases hck : env "DB_CLIENT_KEY_PATH" with _ | ck
        · rw [dbConfFromEnv_missing_ck env w ca cc hs hca hcc hck] at h
          exact absurd h (by simp)
        · rw [dbConfFromEnv_delegates env w ca cc ck hs hca hcc hck] at h
          rcases htls : (tlsConfig ca cc ck w).err with _ | e
          · rw [htls] at h
            simp only [Option.some.injEq] at h
            subst h
            exact ⟨hU, hP, hA, hN⟩
          · rw [htls] at h
            exact absurd h (by simp)
  · rw [dbConfFromEnv_skip env w v hs] at h
    simp only [Option.some.injEq] at h
    subst h
    exact ⟨hU, hP, hA, hN⟩

/-- Witness for C4: with all four override variables bound, the returned
configuration carries exactly the bound values. -/
theorem dbConfFromEnv_override_by_presence_witness :
    (dbConfFromEnv overrideEnv failWorld).dconf =
      some ⟨"u", "p", "tcp", "a:1", "n", "UTC", true, ""⟩ ∧
    "u" = (overrideEnv "DB_USER").getD "root" ∧
    "p" = (overrideEnv "DB_PASS").getD "" ∧
    "a:1" = (overrideEnv "DB_ADDR").getD "localhost:3306" ∧
    "n" = (overrideEnv "DB_NAME").getD "mycrud" :=
  ⟨rfl, dbConfFromEnv_override_by_presence overrideEnv failWorld
    ⟨"u", "p", "tcp", "a:1", "n", "UTC", true, ""⟩ rfl⟩

/-- C5: when none of DB_USER, DB_PASS, DB_ADDR, DB_NAME is set, any
configuration `dbConfFromEnv` produces has username "root", empty
password, transport "tcp", address "localhost:3306", database name
"mycrud", UTC timezone, and temporal-value parsing enabled. -/
theorem dbConfFromEnv_defaults (env : Env) (w : World) (cfg : MysqlConfig)
    (hU : env "DB_USER" = none) (hP : env "DB_PASS" = none)
    (hA : env "DB_ADDR" = none) (hN : env "DB_NAME" = none)
    (h : (dbConfFromEnv env w).dconf = some cfg) :
    cfg.User = "root" ∧ cfg.Passwd = "" ∧ cfg.Net = "tcp" ∧
    cfg.Addr = "localhost:3306" ∧ cfg.DBName = "mycrud" ∧
    cfg.Loc = "UTC" ∧ cfg.ParseTime = true := by
  have hover : applyOverrides env defaultConf = defaultConf := by
    unfold applyOverrides
    rw [hU, hP, hA, hN]
  rcases hs : env "DB_SKIP_TLS" with _ | v
  · rcases hca : env "DB_CA_CERT_PATH" with _ | ca
    · rw [dbConfFromEnv_missing_ca env w hs hca] at h
      exact absurd h (by simp)
    · rcases hcc : env "DB_CLIENT_CERT_PATH" with _ | cc
      · rw [dbConfFromEnv_missing_cc env w ca hs hca hcc] at h
        exact absurd h (by simp)
      · rcases hck : env "DB_CLIENT_KEY_PATH" with _ | ck
        · rw [dbConfFromEnv_missing_ck env w ca cc hs hca hcc hck] at h
          exact absurd h (by simp)
        · rw [dbConfFromEnv_delegates env w ca cc ck hs hca hcc hck] at h
          rcases htls : (tlsConfig ca cc ck w).err with _ | e
          · rw [htls] at h
            simp only [Option.some.injEq] at h
            subst h
            rw [hover]
            exact ⟨rfl, rfl, rfl, rfl, rfl, rfl, rfl⟩
          · rw [htls] at h
            exact absurd h (by simp)
  · rw [dbConfFromEnv_skip env w v hs] at h
    simp only [Option.some.injEq] at h
    subst h
    rw [hover]
    exact ⟨rfl, rfl, rfl, rfl, rfl, rfl, rfl⟩

/-- Witness for C5 at the environment binding only DB_SKIP_TLS. -/
theorem dbConfFromEnv_defaults_witness :
    defaultConf.User = "root" ∧ defaultConf.Passwd = "" ∧
    defaultConf.Net = "tcp" ∧ defaultConf.Addr = "localhost:3306" ∧
    defaultConf.DBName = "mycrud" ∧ defaultConf.Loc = "UTC" ∧
    defaultConf.ParseTime = true :=
  dbConfFromEnv_defaults onlySkipEnv failWorld defaultConf
    rfl rfl rfl rfl rfl

theorem tlsConfig_err_none_shape (ca cc ck : String) (w : World)
    (h : (tlsConfig ca cc ck w).err = none) :
    (tlsConfig ca cc ck w).tconfKey = "custom" ∧
    (List.lookup "custom" (tlsConfig ca cc ck w).world.registry).isSome := by
  rcases hfs : w.fs ca with _ | pem
  · rw [tlsConfig_read_fail ca cc ck w hfs] at h ⊢
    exact absurd h (by simp)
  · rcases hpem : w.appendCertsFromPEM pem with _ | _
    · rw [tlsConfig_pem_fail ca cc ck w pem hfs hpem] at h ⊢
      exact absurd h (by simp)
    · rcases hpair : w.loadX509KeyPair cc ck with msg | cert
      · rw [tlsConfig_pair_fail ca cc ck w pem msg hfs hpem hpair] at h ⊢
        exact absurd h (by simp)
      · rcases hreg : w.registerErr "custom" with _ | msg
        · rw [tlsConfig_success ca cc ck w pem cert hfs hpem hpair hreg]
          refine ⟨rfl, ?_⟩
          simp [List.lookup]
        · rw [tlsConfig_register_fail ca cc ck w pem cert msg hfs hpem hpair hreg]
            at h ⊢
          exact absurd h (by simp)

/-- C6: whenever DB_SKIP_TLS is unset and `dbConfFromEnv` returns a
configuration, that configuration carries the non-empty trust-profile key
"custom", and a profile is registered under that key in the driver
registry of the resulting world. -/
theorem dbConfFromEnv_tls_key_registered (env : Env) (w : World)
    (cfg : MysqlConfig) (hs : env "DB_SKIP_TLS" = none)
    (h : (dbConfFromEnv env w).dconf = some cfg) :
    cfg.TLSConfig = "custom" ∧ cfg.TLSConfig ≠ "" ∧
    (List.lookup "custom" (dbConfFromEnv env w).world.registry).isSome := by
  rcases hca : env "DB_CA_CERT_PATH" with _ | ca
  · rw [dbConfFromEnv_missing_ca env w hs hca] at h
    exact absurd h (by simp)
  · rcases hcc : env "DB_CLIENT_CERT_PATH" with _ | cc
    · rw [dbConfFromEnv_missing_cc env w ca hs hca hcc] at h
      exact absurd h (by simp)
    · rcases hck : env "DB_CLIENT_KEY_PATH" with _ | ck
      · rw [dbConfFromEnv_missing_ck env w ca cc hs hca hcc hck] at h
        exact absurd h (by simp)
      · rw [dbConfFromEnv_delegates env w ca cc ck hs hca hcc hck] at h ⊢
        rcases htls : (tlsConfig ca cc ck w).err with _ | e
        · obtain ⟨hkey, hreg⟩ := tlsConfig_err_none_shape ca cc ck w htls
          rw [htls] at h
          simp only [Option.some.injEq] at h
          subst h
          refine ⟨?_, ?_, ?_⟩
          · show (tlsConfig ca cc ck w).tconfKey = "custom"
            exact hkey
          · show (tlsConfig ca cc ck w).tconfKey ≠ ""
            rw [hkey]
            decide
          · exact hreg
        · rw [htls] at h
          exact absurd h (by simp)

/-- Witness for C6: a fully successful TLS environment yields the key
"custom" on the configuration and in the registry. -/
theorem dbConfFromEnv_tls_key_registered_witness :
    ({ defaultConf with TLSConfig := "custom" } : MysqlConfig).TLSConfig
      = "custom" ∧
    ({ defaultConf with TLSConfig := "custom" } : MysqlConfig).TLSConfig ≠ "" ∧
    (List.lookup "custom"
      (dbConfFromEnv tlsOnlyEnv okWorld).world.registry).isSome :=
  ⟨(dbConfFromEnv_tls_key_registered tlsOnlyEnv okWorld
      { defaultConf with TLSConfig := "custom" } rfl rfl).1,
   (dbConfFromEnv_tls_key_registered tlsOnlyEnv okWorld
      { defaultConf with TLSConfig := "custom" } rfl rfl).2.1,
   (dbConfFromEnv_tls_key_registered tlsOnlyEnv okWorld
      { defaultConf with TLSConfig := "custom" } rfl rfl).2.2⟩

/-- C7: on well-formed inputs (readable CA bundle with at least one PEM
certificate, loadable client pair, acceptable key), two successive calls to
`tlsConfig` with the same inputs both succeed with the same non-empty key
"custom"; the second registration shadows the first in the registry
(last-write-wins), rather than failing. -/
theorem tlsConfig_idempotent_overwrite (ca cc ck : String) (w : World)
    (pem : List Nat) (cert : Certificate)
    (h : w.fs ca = some pem) (h2 : w.appendCertsFromPEM pem = true)
    (h3 : w.loadX509KeyPair cc ck = .ok cert)
    (h4 : w.registerErr "custom" = none) :
    (tlsConfig ca cc ck w).err = none ∧
    (tlsConfig ca cc ck w).tconfKey = "custom" ∧
    (tlsConfig ca cc ck w).tconfKey ≠ "" ∧
    (tlsConfig ca cc ck (tlsConfig ca cc ck w).world).err = none ∧
    (tlsConfig ca cc ck (tlsConfig ca cc ck w).world).tconfKey = "custom" ∧
    List.lookup "custom"
      (tlsConfig ca cc ck (tlsConfig ca cc ck w).world).world.registry =
      some ⟨pem, [cert]⟩ ∧
    (tlsConfig ca cc ck (tlsConfig ca cc ck w).world).world.registry =
      ("custom", ⟨pem, [cert]⟩) :: ("custom", ⟨pem, [cert]⟩) :: w.registry := by
  have e1 := tlsConfig_success ca cc ck w pem cert h h2 h3 h4
  have e2 := tlsConfig_success ca cc ck
      { w with registry := ("custom", ⟨pem, [cert]⟩) :: w.registry }
      pem cert h h2 h3 h4
  rw [e1]
  dsimp only
  rw [e2]
  refine ⟨rfl, rfl, by decide, rfl, rfl, ?_, rfl⟩
  simp [List.lookup]

/-- Witness for C7 at a concrete world in which every external call
succeeds. -/
theorem tlsConfig_idempotent_overwrite_witness :
    (tlsConfig "a" "b" "c" okWorld).err = none ∧
    (tlsConfig "a" "b" "c" okWorld).tconfKey = "custom" ∧
    (tlsConfig "a" "b" "c" okWorld).tconfKey ≠ "" ∧
    (tlsConfig "a" "b" "c" (tlsConfig "a" "b" "c" okWorld).world).err = none ∧
    (tlsConfig "a" "b" "c" (tlsConfig "a" "b" "c" okWorld).world).tconfKey
      = "custom" ∧
    List.lookup "custom"
      (tlsConfig "a" "b" "c" (tlsConfig "a" "b" "c" okWorld).world).world.registry
      = some ⟨[0], [⟨[1]⟩]⟩ ∧
    (tlsConfig "a" "b" "c" (tlsConfig "a" "b" "c" okWorld).world).world.registry
      = ("custom", ⟨[0], [⟨[1]⟩]⟩) :: ("custom", ⟨[0], [⟨[1]⟩]⟩)
        :: okWorld.registry :=
  tlsConfig_idempotent_overwrite "a" "b" "c" okWorld [0] ⟨[1]⟩ rfl rfl rfl rfl

/-- C8 counterexample: with DB_SKIP_TLS unset and the three paths present
in a world where loading succeeds, `dbConfFromEnv` performs file reads, a
key-pair load and a registry registration — side effects beyond reading
environment variables — so the claim as stated is false. -/
theorem dbConfFromEnv_side_effects_exist :
    (dbConfFromEnv tlsOnlyEnv okWorld).trace ≠ [] ∧
    (dbConfFromEnv tlsOnlyEnv okWorld).world.registry ≠ okWorld.registry := by
  refine ⟨by decide, by decide⟩

/-- C8 amended: `dbConfFromEnv` performs no side effect beyond reading
environment variables on every path where it does not delegate (DB_SKIP_TLS
present, or a required path variable missing); when it delegates (skip
unset, all three paths present), its side effects are exactly those of the
Credential/Trust Loader `tlsConfig`. -/
theorem dbConfFromEnv_effects_only_via_loader (env : Env) (w : World) :
    (env "DB_SKIP_TLS" ≠ none ∨ env "DB_CA_CERT_PATH" = none ∨
     env "DB_CLIENT_CERT_PATH" = none ∨ env "DB_CLIENT_KEY_PATH" = none →
      (dbConfFromEnv env w).trace = [] ∧ (dbConfFromEnv env w).world = w) ∧
    (∀ ca cc ck, env "DB_SKIP_TLS" = none → env "DB_CA_CERT_PATH" = some ca →
      env "DB_CLIENT_CERT_PATH" = some cc →
      env "DB_CLIENT_KEY_PATH" = some ck →
      (dbConfFromEnv env w).trace = (tlsConfig ca cc ck w).trace ∧
      (dbConfFromEnv env w).world = (tlsConfig ca cc ck w).world) := by
  constructor
  · intro hd
    rcases hs : env "DB_SKIP_TLS" with _ | v
    · rcases hca : env "DB_CA_CERT_PATH" with _ | ca
      · rw [dbConfFromEnv_missing_ca env w hs hca]
        exact ⟨rfl, rfl⟩
      · rcases hcc : env "DB_CLIENT_CERT_PATH" with _ | cc
        · rw [dbConfFromEnv_missing_cc env w ca hs hca hcc]
          exact ⟨rfl, rfl⟩
        · rcases hck : env "DB_CLIENT_KEY_PATH" with _ | ck
          · rw [dbConfFromEnv_missing_ck env w ca cc hs hca hcc hck]
            exact ⟨rfl, rfl⟩
          · rcases hd with h | h | h | h <;> simp_all
    · rw [dbConfFromEnv_skip env w v hs]
      exact ⟨rfl, rfl⟩
  · intro ca cc ck hs hca hcc hck
    rw [dbConfFromEnv_delegates env w ca cc ck hs hca hcc hck]
    rcases htls : (tlsConfig ca cc ck w).err with _ | e
    · exact ⟨rfl, rfl⟩
    · exact ⟨rfl, rfl⟩

/-- Witness for the amended C8: with only DB_SKIP_TLS set the resolver
leaves the world untouched and performs no effect. -/
theorem dbConfFromEnv_effects_only_via_loader_witness :
    (dbConfFromEnv onlySkipEnv failWorld).trace = [] ∧
    (dbConfFromEnv onlySkipEnv failWorld).world = failWorld :=
  (dbConfFromEnv_effects_only_via_loader onlySkipEnv failWorld).1
    (.inl (by decide))

theorem foldl_append_eq (l acc : List user) :
    l.foldl (fun uu u => uu ++ [u]) acc = acc ++ l := by
  induction l generalizing acc with
  | nil => simp
  | cons x xs ih =>
    rw [List.foldl_cons, ih]
    simp

/-- C9: `Users` succeeds and returns every row of the user table, in the
order the table holds them (insertion order in the model of the server's
full-table select). -/
theorem Users_returns_table_in_order (s : DBState) :
    Users s = (some s.table, none) := by
  unfold Users
  rw [foldl_append_eq]
  simp

/-- C10: failure is atomic at the public interface: whenever
`dbConfFromEnv` returns an error the configuration is nil, and whenever
`tlsConfig` returns an error the lookup key is the empty string. -/
theorem dbConfFromEnv_tlsConfig_failure_atomic (env : Env) (w : World) :
    ((dbConfFromEnv env w).err.isSome → (dbConfFromEnv env w).dconf = none) ∧
    (∀ ca cc ck, (tlsConfig ca cc ck w).err.isSome →
      (tlsConfig ca cc ck w).tconfKey = "") := by
  constructor
  · intro he
    rcases hs : env "DB_SKIP_TLS" with _ | v
    · rcases hca : env "DB_CA_CERT_PATH" with _ | ca
      · rw [dbConfFromEnv_missing_ca env w hs hca]
      · rcases hcc : env "DB_CLIENT_CERT_PATH" with _ | cc
        · rw [dbConfFromEnv_missing_cc env w ca hs hca hcc]
        · rcases hck : env "DB_CLIENT_KEY_PATH" with _ | ck
          · rw [dbConfFromEnv_missing_ck env w ca cc hs hca hcc hck]
          · rw [dbConfFromEnv_delegates env w ca cc ck hs hca hcc hck] at he ⊢
            rcases htls : (tlsConfig ca cc ck w).err with _ | e
            · rw [htls] at he
              simp at he
            · rfl
    · rw [dbConfFromEnv_skip env w v hs] at he
      simp at he
  · intro ca cc ck he
    rcases hfs : w.fs ca with _ | pem
    · rw [tlsConfig_read_fail ca cc ck w hfs]
    · rcases hpem : w.appendCertsFromPEM pem with _ | _
      · rw [tlsConfig_pem_fail ca cc ck w pem hfs hpem]
      · rcases hpair : w.loadX509KeyPair cc ck with msg | cert
        · rw [tlsConfig_pair_fail ca cc ck w pem msg hfs hpem hpair]
        · rcases hreg : w.registerErr "custom" with _ | msg
          · rw [tlsConfig_success ca cc ck w pem cert hfs hpem hpair hreg] at he
            simp at he
          · rw [tlsConfig_register_fail ca cc ck w pem cert msg hfs hpem
              hpair hreg]

/-- Witness for C10: a failing environment yields a nil configuration, a
failing loader yields an empty key. -/
theorem dbConfFromEnv_tlsConfig_failure_atomic_witness :
    (dbConfFromEnv (fun _ => none) failWorld).dconf = none ∧
    (tlsConfig "a" "b" "c" failWorld).tconfKey = "" :=
  ⟨(dbConfFromEnv_tlsConfig_failure_atomic (fun _ => none) failWorld).1 rfl,
   (dbConfFromEnv_tlsConfig_failure_atomic (fun _ => none) failWorld).2
     "a" "b" "c" rfl⟩
